import Mathlib

/-
Verification of the phoneexpressAI storefront core (src/chatbot/views.py):
a shallow embedding of the catalog query (phones_api), the chat endpoint
(chat_api) and the order placement endpoint (create_order), together with
theorems about the claims of the specification.
-/

namespace PhoneExpress

/-- Phone record. Modelled from the spec: the model declarations (models.py)
are not part of the sources; the spec describes a Phone as identifier, name,
brand, model, price (decimal currency amount), description, stock
(integer) and availability flag. Python integers are modelled as ℤ and the
decimal price as ℚ (Python Decimal arithmetic is exact within its precision). -/
structure Phone where
  id : ℤ
  name : String
  brand : String
  model : String
  price_php : ℚ
  description : String
  stock : ℤ
  is_available : Bool
deriving DecidableEq, Repr

/-- Order record. Modelled from the spec: identifier, customer contact strings,
a reference to one Phone, quantity, total price (decimal, fixed at creation),
shipping address and a status string. -/
structure Order where
  id : ℕ
  customer_name : String
  customer_email : String
  customer_phone : String
  phone_id : ℤ
  quantity : ℤ
  total_price_php : ℚ
  shipping_address : String
  status : String
deriving DecidableEq, Repr

/-- Persistent state of the two stores: the catalog (Phone rows) and the
order table (Order rows). -/
structure DB where
  phones : List Phone
  orders : List Order
deriving DecidableEq, Repr

/-! Model of the Python float() conversion applied by the views to Decimal
values before JSON serialisation (float(phone.price_php) in phones_api and
float(total_price) in create_order): rounding of a rational to the nearest
IEEE-754 binary64 value, ties to even, in the normal range. -/

/-- Floor of the base-2 logarithm of a positive natural number; the first
argument is recursion fuel (any fuel at least n suffices). -/
def natLog2 : ℕ → ℕ → ℕ
  | 0, _ => 0
  | f + 1, n => if 2 ≤ n then natLog2 f (n / 2) + 1 else 0

/-- Ceiling of the base-2 logarithm of a positive natural number: the least k
with n ≤ 2 ^ k. -/
def natClog2 (n : ℕ) : ℕ :=
  if n ≤ 1 then 0 else natLog2 (n - 1) (n - 1) + 1

/-- Ceiling of a rational, written through the floor. -/
def ratCeil (q : ℚ) : ℤ := -⌊-q⌋

/-- Floor of the base-2 logarithm of a positive rational. -/
def ratLog2 (q : ℚ) : ℤ :=
  if 1 ≤ q then (natLog2 (Int.toNat ⌊q⌋) (Int.toNat ⌊q⌋) : ℤ)
  else -(natClog2 (Int.toNat (ratCeil q⁻¹)) : ℤ)

/-- Round a rational to the nearest integer, ties to even. -/
def roundTiesEven (q : ℚ) : ℤ :=
  if q - ⌊q⌋ < 1 / 2 then ⌊q⌋
  else if 1 / 2 < q - ⌊q⌋ then ⌊q⌋ + 1
  else if ⌊q⌋ % 2 = 0 then ⌊q⌋ else ⌊q⌋ + 1

/-- Nearest binary64 value to a positive rational: 53 significant bits,
round to nearest, ties to even (normal range; the catalog amounts in
question are far from overflow and underflow). -/
def floatRoundPos (q : ℚ) : ℚ :=
  (roundTiesEven (q * 2 ^ ((52 : ℤ) - ratLog2 q)) : ℚ) * 2 ^ (ratLog2 q - 52)

/-- Model of Python float(x) on an exact decimal value x: the nearest
binary64 value, with the sign handled symmetrically as IEEE-754 does. -/
def pyFloat (q : ℚ) : ℚ :=
  if q = 0 then 0
  else if q < 0 then -floatRoundPos (-q)
  else floatRoundPos q

/-! Catalog query (phones_api, views.py lines 21-35). -/

/-- Filter used by both phones_api and the chat context:
Phone.objects.filter(is_available=True, stock__gt=0). -/
def availableInStock (p : Phone) : Bool :=
  p.is_available && decide (0 < p.stock)

/-- JSON record serialised for one phone by phones_api; the price goes through
float(phone.price_php), modelled by pyFloat. -/
structure PhoneJson where
  id : ℤ
  name : String
  brand : String
  model : String
  price_php : ℚ
  description : String
  stock : ℤ
deriving DecidableEq, Repr

/-- Serialisation of one phone row, views.py lines 26-34. -/
def phoneJson (p : Phone) : PhoneJson :=
  ⟨p.id, p.name, p.brand, p.model, pyFloat p.price_php, p.description, p.stock⟩

/-- The GET /phones endpoint: reads the catalog, mutates nothing, and returns
the available in-stock phones in store order. -/
def phones_api (db : DB) : DB × List PhoneJson :=
  (db, (db.phones.filter availableInStock).map phoneJson)

/-! Chat endpoint (chat_api, views.py lines 38-172). The embedding covers the
request handling up to the outbound call to the text-generation collaborator;
the upstream response handling is the external collaborator and out of scope. -/

/-- Grouping of a reversed digit list into blocks of three, for the thousands
separators of the Python format spec. -/
def chunk3 : List Char → List (List Char)
  | [] => []
  | [a] => [[a]]
  | [a, b] => [[a, b]]
  | a :: b :: c :: rest => [a, b, c] :: chunk3 rest

/-- Python format(x, ",.2f") on a nonnegative Decimal amount: two fractional
digits (half-even if the amount had more) and comma thousands separators. -/
def formatMoney (q : ℚ) : String :=
  let cents : ℕ := (roundTiesEven (q * 100)).toNat
  let rev : List Char := (toString (cents / 100)).toList.reverse
  String.intercalate "," ((chunk3 rev).reverse.map (fun g => String.mk g.reverse)) ++
    "." ++ (if cents % 100 < 10 then "0" else "") ++ toString (cents % 100)

/-- One line of the catalog context injected into the system prompt,
views.py line 56. -/
def phoneLine (p : Phone) : String :=
  "- " ++ p.brand ++ " " ++ p.model ++ ": ₱" ++ formatMoney p.price_php ++ " (" ++
    toString p.stock ++ " in stock) - " ++ p.description

/-- Catalog context of the system prompt, views.py lines 54-60: the available
in-stock phones, one line each, with a fallback when the join is empty. -/
def phones_context (phones : List Phone) : String :=
  let ctx := String.intercalate "\n" ((phones.filter availableInStock).map phoneLine)
  if ctx = "" then "No phones are currently available in stock." else ctx

/-- Text of the system prompt before the interpolated catalog context. -/
def promptHead : String :=
  "You are a phone specialist AI assistant for Phone Express AI. Your ONLY focus is helping customers with phones.

Your role is EXCLUSIVELY about phones:
1. Help customers find the perfect phone based on their needs, budget, and preferences
2. Provide detailed information about phone specifications, features, and capabilities
3. Compare different phone models and brands
4. Answer questions about phone prices, availability, and ordering
5. Recommend phones based on specific requirements (camera quality, battery life, performance, etc.)

Available phones:
"

/-- Text of the system prompt after the interpolated catalog context. -/
def promptTail : String :=
  "

IMPORTANT RULES:
- You ONLY discuss phones and phone-related topics
- If asked about non-phone topics, politely redirect to phone-related questions
- All prices are in Philippine Peso (PHP/₱)
- Always mention prices in PHP format (e.g., ₱25,999.00)
- Be friendly, professional, and knowledgeable about phones
- If a customer wants to order a phone, guide them to provide: name, email, phone number, shipping address, and which phone they want
- Focus on phone specifications, features, comparisons, and recommendations
- Check stock availability before confirming orders

Stay focused on phones only. Current conversation context is maintained through the chat history."

/-- System prompt for the AI assistant, views.py lines 66-88. -/
def system_prompt (db : DB) : String :=
  promptHead ++ phones_context db.phones ++ promptTail

/-- One message of the payload sent upstream. -/
structure ChatMsg where
  role : String
  content : String
deriving DecidableEq, Repr

/-- One raw entry of the history list of the request body; either key may be
absent, in which case msg.get supplies a default (views.py lines 104-108). -/
structure RawMsg where
  role : Option String
  content : Option String
deriving DecidableEq, Repr

/-- Defaulting of a history entry: role falls back to user, content to the
empty string. -/
def coerceMsg (m : RawMsg) : ChatMsg :=
  ⟨m.role.getD "user", m.content.getD ""⟩

/-- Python negative-index slice l[-n:]: the last n elements, or the whole
list when it is shorter than n. -/
def lastSlice {α : Type} (n : ℕ) (l : List α) : List α :=
  l.drop (l.length - n)

/-- Body of a POST /chat request: the message field and the history list,
message missing modelled as none. -/
structure ChatRequest where
  message : Option String
  history : List RawMsg
deriving DecidableEq, Repr

/-- Payload posted to the text-generation collaborator,
views.py lines 113-118. -/
structure ChatPayload where
  model : String
  messages : List ChatMsg
  temperature : ℚ
  max_tokens : ℕ
deriving DecidableEq, Repr

/-- Outcome of chat_api as far as this core is concerned: either an early
rejection with a JSON body and status, or a payload forwarded upstream. -/
inductive ChatOutcome where
  | reject (response : String) (success : Bool) (status : ℕ)
  | forwarded (payload : ChatPayload)
deriving DecidableEq, Repr

/-- Messages built for the upstream call, views.py lines 101-111: the system
prompt, then the last 10 history entries, then the current user message. -/
def buildMessages (sys : String) (history : List RawMsg) (user_message : String) :
    List ChatMsg :=
  ChatMsg.mk "system" sys :: ((lastSlice 10 history).map coerceMsg ++
    [ChatMsg.mk "user" user_message])

/-- The POST /chat endpoint, views.py lines 40-121, up to the outbound call:
an empty or missing message is rejected with status 400 before anything is
built or sent; otherwise the payload is assembled and forwarded. No store is
ever written. -/
def chat_api (db : DB) (req : ChatRequest) : DB × ChatOutcome :=
  if req.message.getD "" = "" then
    (db, ChatOutcome.reject "Please provide a message." false 400)
  else
    (db, ChatOutcome.forwarded
      ⟨"openai/gpt-3.5-turbo",
       buildMessages (system_prompt db) req.history (req.message.getD ""),
       7 / 10, 500⟩)

/-! Order placement (create_order, views.py lines 175-244). -/

/-- Value of the quantity field of the request body as seen by
int(data.get(quantity, 1)): absent (defaults to 1), a value int() converts,
or a value on which int() raises. -/
inductive QtyField where
  | missing
  | parsable (n : ℤ)
  | unparsable
deriving DecidableEq, Repr

/-- Body of a POST /orders request; each field may be absent. -/
structure OrderRequest where
  phone_id : Option ℤ
  quantity : QtyField
  customer_name : Option String
  customer_email : Option String
  customer_phone : Option String
  shipping_address : Option String
deriving DecidableEq, Repr

/-- Evaluation of int(data.get(quantity, 1)), views.py line 183: none means
int() raised, which the enclosing except turns into a 500 response. -/
def parseQuantity : QtyField → Option ℤ
  | QtyField.missing => some 1
  | QtyField.parsable n => some n
  | QtyField.unparsable => none

/-- Python truthiness of an optional string: absent and empty are falsy. -/
def truthyStr : Option String → Bool
  | none => false
  | some s => decide (s ≠ "")

/-- Python truthiness of the phone_id value: absent and zero are falsy. -/
def truthyId : Option ℤ → Bool
  | none => false
  | some n => decide (n ≠ 0)

/-- The all([...]) check of views.py line 190. The quantity is not part of
this check in the source. -/
def requiredFieldsOk (req : OrderRequest) : Bool :=
  truthyId req.phone_id && truthyStr req.customer_name &&
    truthyStr req.customer_email && truthyStr req.customer_phone &&
    truthyStr req.shipping_address

/-- Phone.objects.get(id=phone_id, is_available=True), views.py line 198:
the first catalog row with the given id that is available, none when the
lookup raises DoesNotExist. -/
def findPhone : List Phone → ℤ → Option Phone
  | [], _ => none
  | p :: rest, pid =>
    if p.id = pid ∧ p.is_available = true then some p else findPhone rest pid

/-- Row lookup by primary key, used to state what a later reader of the
catalog observes. -/
def lookupById : List Phone → ℤ → Option Phone
  | [], _ => none
  | p :: rest, pid => if p.id = pid then some p else lookupById rest pid

/-- Effect of phone.save(), views.py line 231: the row with the primary key
of the saved object is overwritten with the in-memory object. -/
def updatePhone : List Phone → Phone → List Phone
  | [], _ => []
  | x :: rest, p' => (if x.id = p'.id then p' else x) :: updatePhone rest p'

/-- In-memory phone object after views.py lines 228-230: the stock is
decremented and availability is cleared exactly when the new stock is 0. -/
def decrementedPhone (phone : Phone) (quantity : ℤ) : Phone :=
  { phone with
    stock := phone.stock - quantity
    is_available := if phone.stock - quantity = 0 then false else phone.is_available }

/-- Order row written by Order.objects.create, views.py lines 216-225, with
an autoincremented primary key. -/
def newOrder (db : DB) (req : OrderRequest) (phone : Phone) (quantity : ℤ)
    (total : ℚ) : Order :=
  { id := db.orders.length + 1
    customer_name := req.customer_name.getD ""
    customer_email := req.customer_email.getD ""
    customer_phone := req.customer_phone.getD ""
    phone_id := phone.id
    quantity := quantity
    total_price_php := total
    shipping_address := req.shipping_address.getD ""
    status := "pending" }

/-- Runtime failure schedule for the two persistence calls of create_order.
The view runs in autocommit mode with no transaction demarcation, so
Order.objects.create (line 216) and phone.save() (line 231) are separate
writes and either may raise at runtime (for example on a lost database
connection); a raised write performs nothing and control reaches the
enclosing except clause, which returns a 500 response. -/
structure Faults where
  orderCreateFails : Bool
  phoneSaveFails : Bool
deriving DecidableEq, Repr

/-- The fault-free schedule: both writes are applied. -/
def noFaults : Faults := ⟨false, false⟩

/-- Outcome of create_order: the constructor records which return statement
of views.py lines 177-244 produced the response. -/
inductive OrderResult where
  | success (order_id : ℕ) (total_price_php : ℚ)
  | validationError
  | notFound
  | insufficientStock (stock : ℤ)
  | serverError
deriving DecidableEq, Repr

/-- JSON response assembled for each outcome. The success response converts
the Decimal total with float(), modelled by pyFloat; the serverError message
has str(e) appended in the source. -/
structure OrderResponse where
  success : Bool
  status : ℕ
  message : String
  order_id : Option ℕ
  total_price_php : Option ℚ
deriving DecidableEq, Repr

/-- Response construction of views.py lines 191-194, 200-203, 207-210,
233-238 and 241-244. -/
def orderResponse : OrderResult → OrderResponse
  | OrderResult.success oid total =>
    ⟨true, 200, "Order placed successfully!", some oid, some (pyFloat total)⟩
  | OrderResult.validationError => ⟨false, 400, "All fields are required", none, none⟩
  | OrderResult.notFound => ⟨false, 404, "Phone not found or not available", none, none⟩
  | OrderResult.insufficientStock s =>
    ⟨false, 400, "Only " ++ toString s ++ " units available in stock", none, none⟩
  | OrderResult.serverError => ⟨false, 500, "Error creating order: ", none, none⟩

/-- The POST /orders endpoint, views.py lines 177-244, in source order:
parse the quantity (an unparsable value raises, caught as a 500), check the
required fields, fetch the phone by id among available rows, compare the
stock, compute the total, insert the order row, then decrement and save the
phone row. The faults argument records which persistence call, if any,
raises at runtime. -/
def create_order (db : DB) (req : OrderRequest) (faults : Faults) :
    DB × OrderResult :=
  match parseQuantity req.quantity with
  | none => (db, OrderResult.serverError)
  | some quantity =>
    if requiredFieldsOk req = false then (db, OrderResult.validationError)
    else
      match findPhone db.phones (req.phone_id.getD 0) with
      | none => (db, OrderResult.notFound)
      | some phone =>
        if phone.stock < quantity then (db, OrderResult.insufficientStock phone.stock)
        else
          if faults.orderCreateFails then (db, OrderResult.serverError)
          else
            let order := newOrder db req phone quantity (phone.price_php * (quantity : ℚ))
            let db₁ : DB := ⟨db.phones, db.orders ++ [order]⟩
            if faults.phoneSaveFails then (db₁, OrderResult.serverError)
            else
              (⟨updatePhone db₁.phones (decrementedPhone phone quantity), db₁.orders⟩,
               OrderResult.success order.id (phone.price_php * (quantity : ℚ)))

/-- The data-model invariant of the spec: availability is false whenever the
stock is zero. -/
def stockInvariant (db : DB) : Prop :=
  ∀ p ∈ db.phones, p.stock = 0 → p.is_available = false

/-! Interleaving model for concurrent order placement. Each request handler
runs the same code as create_order, but its accesses to the shared store are
individual steps that other handlers may interleave with: the phone read
(Phone.objects.get, line 198), the order insert (Order.objects.create,
line 216) and the phone write (phone.save(), line 231). The stock comparison
and the decrement use the snapshot obtained by the read, exactly as the
source operates on its in-memory phone object. Fault-free execution is
assumed (the race needs no faults). -/

/-- Program counter of one in-flight create_order request. -/
inductive PC where
  | start
  | gotPhone (snapshot : Phone) (quantity : ℤ)
  | created (snapshot : Phone) (quantity : ℤ) (oid : ℕ)
  | finished (r : OrderResult)
deriving DecidableEq, Repr

/-- One atomic step of one request against the shared store. -/
def stepOrder (req : OrderRequest) : DB × PC → DB × PC
  | (db, PC.start) =>
    match parseQuantity req.quantity with
    | none => (db, PC.finished OrderResult.serverError)
    | some quantity =>
      if requiredFieldsOk req = false then (db, PC.finished OrderResult.validationError)
      else
        match findPhone db.phones (req.phone_id.getD 0) with
        | none => (db, PC.finished OrderResult.notFound)
        | some phone => (db, PC.gotPhone phone quantity)
  | (db, PC.gotPhone phone quantity) =>
    if phone.stock < quantity then
      (db, PC.finished (OrderResult.insufficientStock phone.stock))
    else
      let order := newOrder db req phone quantity (phone.price_php * (quantity : ℚ))
      (⟨db.phones, db.orders ++ [order]⟩, PC.created phone quantity order.id)
  | (db, PC.created phone quantity oid) =>
    (⟨updatePhone db.phones (decrementedPhone phone quantity), db.orders⟩,
     PC.finished (OrderResult.success oid (phone.price_php * (quantity : ℚ))))
  | (db, PC.finished r) => (db, PC.finished r)

/-- Interleaved execution of two requests under a schedule: true steps the
first request, false the second. -/
def runTwo (r1 r2 : OrderRequest) : List Bool → DB × PC × PC → DB × PC × PC
  | [], s => s
  | true :: rest, (db, pc1, pc2) =>
    let s' := stepOrder r1 (db, pc1)
    runTwo r1 r2 rest (s'.1, s'.2, pc2)
  | false :: rest, (db, pc1, pc2) =>
    let s' := stepOrder r2 (db, pc2)
    runTwo r1 r2 rest (s'.1, pc1, s'.2)

/-! Concrete fixtures used by the closed theorems and witnesses. -/

/-- Catalog row with three units in stock. -/
def phoneA : Phone :=
  ⟨1, "Galaxy A16", "Samsung", "A16", 25999, "budget phone", 3, true⟩

/-- Catalog row with a single unit in stock. -/
def phoneB : Phone :=
  ⟨1, "Galaxy A16", "Samsung", "A16", 25999, "budget phone", 1, true⟩

/-- Catalog row priced at 0.10, a value with no exact binary64
representation once multiplied by 3. -/
def phoneC : Phone :=
  ⟨2, "Promo Item", "Brandy", "P1", 1 / 10, "promo", 5, true⟩

/-- Store holding phoneA and no orders. -/
def db0 : DB := ⟨[phoneA], []⟩

/-- Store holding phoneB and no orders. -/
def db1 : DB := ⟨[phoneB], []⟩

/-- Store holding phoneC and no orders. -/
def db2 : DB := ⟨[phoneC], []⟩

/-- Valid placement request for one unit of phone 1. -/
def reqA : OrderRequest :=
  ⟨some 1, QtyField.parsable 1, some "Juan", some "juan@mail.test", some "0917",
   some "Manila"⟩

/-- Valid placement request for one unit of phone 1, second customer. -/
def reqB : OrderRequest :=
  ⟨some 1, QtyField.parsable 1, some "Maria", some "maria@mail.test", some "0918",
   some "Cebu"⟩

/-- Valid placement request for two units of phone 1. -/
def reqTwo : OrderRequest :=
  ⟨some 1, QtyField.parsable 2, some "Juan", some "juan@mail.test", some "0917",
   some "Manila"⟩

/-- Valid placement request for three units of phone 2. -/
def reqC : OrderRequest :=
  ⟨some 2, QtyField.parsable 3, some "Juan", some "juan@mail.test", some "0917",
   some "Manila"⟩

/-- Placement request whose quantity field holds the integer 0. -/
def reqZero : OrderRequest :=
  ⟨some 1, QtyField.parsable 0, some "Juan", some "juan@mail.test", some "0917",
   some "Manila"⟩

/-- Placement request whose quantity field holds the integer -2. -/
def reqNeg : OrderRequest :=
  ⟨some 1, QtyField.parsable (-2), some "Juan", some "juan@mail.test", some "0917",
   some "Manila"⟩

/-- Placement request whose quantity field makes int() raise. -/
def reqBadQty : OrderRequest :=
  ⟨some 1, QtyField.unparsable, some "Juan", some "juan@mail.test", some "0917",
   some "Manila"⟩

/-- Schedule in which both handlers read the phone before either writes. -/
def raceSchedule : List Bool := [true, false, true, true, false, false]

/-- Discriminator for the 200 outcome. -/
def isSuccess : OrderResult → Bool
  | OrderResult.success _ _ => true
  | _ => false

/-- Discriminator for a request handler that finished with the 200 outcome. -/
def finishedSuccess : PC → Bool
  | PC.finished r => isSuccess r
  | _ => false

/-- Chat history with twelve entries, two more than the forwarding window. -/
def hist12 : List RawMsg :=
  [⟨some "user", some "m01"⟩, ⟨some "assistant", some "m02"⟩,
   ⟨some "user", some "m03"⟩, ⟨some "assistant", some "m04"⟩,
   ⟨some "user", some "m05"⟩, ⟨some "assistant", some "m06"⟩,
   ⟨some "user", some "m07"⟩, ⟨some "assistant", some "m08"⟩,
   ⟨some "user", some "m09"⟩, ⟨some "assistant", some "m10"⟩,
   ⟨some "user", some "m11"⟩, ⟨some "assistant", some "m12"⟩]

/-- Sanity check that ratCeil is the ceiling function. -/
lemma ratCeil_eq_ceil (q : ℚ) : ratCeil q = ⌈q⌉ := by
  rw [ratCeil, Int.floor_neg, neg_neg]

/-- Helper for evaluating roundTiesEven on concrete values that round down. -/
lemma roundTiesEven_eq_of_lt (q : ℚ) (f : ℤ) (hf : ⌊q⌋ = f)
    (h : q - (f : ℚ) < 1 / 2) : roundTiesEven q = f := by
  rw [roundTiesEven, hf, if_pos h]

/-- Evaluation rule for pyFloat on positive arguments. -/
lemma pyFloat_of_pos (q : ℚ) (h0 : 0 < q) : pyFloat q = floatRoundPos q := by
  rw [pyFloat, if_neg (ne_of_gt h0), if_neg (not_lt.mpr h0.le)]

/-- Binary exponent of 3/10. -/
lemma ratLog2_three_tenths : ratLog2 (3 / 10) = -2 := by
  rw [ratLog2, if_neg (by norm_num)]
  have h : ratCeil (((3 : ℚ) / 10)⁻¹) = 4 := by rw [ratCeil]; norm_num
  rw [h]; decide

/-- Binary exponent of 51998. -/
lemma ratLog2_51998 : ratLog2 51998 = 15 := by
  rw [ratLog2, if_pos (by norm_num)]
  have h : ⌊(51998 : ℚ)⌋ = 51998 := by norm_num
  rw [h]; decide

/-- The decimal value 0.30 is not representable in binary64: Python float()
returns the nearest binary64 value, which differs from 3/10. -/
lemma pyFloat_three_tenths : pyFloat (3 / 10) = 5404319552844595 / 2 ^ 54 := by
  rw [pyFloat_of_pos _ (by norm_num), floatRoundPos, ratLog2_three_tenths]
  have h2 : ((3 : ℚ) / 10) * 2 ^ ((52 : ℤ) - (-2)) = 27021597764222976 / 5 := by
    norm_num
  rw [h2, roundTiesEven_eq_of_lt _ 5404319552844595 (by norm_num) (by norm_num)]
  norm_num

/-- The float conversion moves 0.30 away from the exact decimal value. -/
lemma pyFloat_three_tenths_ne : pyFloat (3 / 10) ≠ 3 / 10 := by
  rw [pyFloat_three_tenths]; norm_num

/-- The integer 51998 is exactly representable in binary64, so float() is the
identity there. -/
lemma pyFloat_51998 : pyFloat 51998 = 51998 := by
  rw [pyFloat_of_pos _ (by norm_num), floatRoundPos, ratLog2_51998]
  have h2 : (51998 : ℚ) * 2 ^ ((52 : ℤ) - 15) = 51998 * 2 ^ 37 := by norm_num
  rw [h2, roundTiesEven_eq_of_lt _ (51998 * 2 ^ 37) (by norm_num) (by norm_num)]
  push_cast
  norm_num

/-- A successful phone lookup returns a member row that has the requested id
and is available. -/
lemma findPhone_eq_some {phones : List Phone} {pid : ℤ} {p : Phone}
    (h : findPhone phones pid = some p) :
    p ∈ phones ∧ p.id = pid ∧ p.is_available = true := by
  induction phones with
  | nil => simp [findPhone] at h
  | cons a rest ih =>
    by_cases hc : a.id = pid ∧ a.is_available = true
    · rw [findPhone, if_pos hc] at h
      cases h
      exact ⟨List.mem_cons_self _ _, hc.1, hc.2⟩
    · rw [findPhone, if_neg hc] at h
      obtain ⟨hm, hrest⟩ := ih h
      exact ⟨List.mem_cons_of_mem a hm, hrest⟩

/-- After saving a phone object, a reader looking the row up by primary key
observes the saved object, provided a row with that id existed. -/
lemma lookupById_updatePhone {phones : List Phone} {p' : Phone}
    (hx : ∃ x ∈ phones, x.id = p'.id) :
    lookupById (updatePhone phones p') p'.id = some p' := by
  induction phones with
  | nil => obtain ⟨x, hx, _⟩ := hx; cases hx
  | cons a rest ih =>
    by_cases h : a.id = p'.id
    · rw [updatePhone, if_pos h, lookupById, if_pos rfl]
    · rw [updatePhone, if_neg h, lookupById, if_neg h]
      obtain ⟨x, hmem, hid⟩ := hx
      rcases List.mem_cons.mp hmem with rfl | hmem
      · exact absurd hid h
      · exact ih ⟨x, hmem, hid⟩

/-- C4: a successful placement of quantity q against a phone with stock s
and availability true leaves the row with stock s - q, and availability is
false afterwards exactly when s - q = 0. -/
theorem create_order_success_updates_stock (db : DB) (req : OrderRequest)
    (q : ℤ) (phone : Phone)
    (hq : parseQuantity req.quantity = some q)
    (hv : requiredFieldsOk req = true)
    (hp : findPhone db.phones (req.phone_id.getD 0) = some phone)
    (hs : ¬ phone.stock < q) :
    ∃ db' oid p',
      create_order db req noFaults = (db', OrderResult.success oid (phone.price_php * (q : ℚ))) ∧
      lookupById db'.phones phone.id = some p' ∧
      p'.stock = phone.stock - q ∧
      (p'.is_available = false ↔ phone.stock - q = 0) := by
  obtain ⟨hmem, hid, hav⟩ := findPhone_eq_some hp
  refine ⟨⟨updatePhone db.phones (decrementedPhone phone q),
           db.orders ++ [newOrder db req phone q (phone.price_php * (q : ℚ))]⟩,
          db.orders.length + 1, decrementedPhone phone q, ?_, ?_, rfl, ?_⟩
  · simp [create_order, hq, hv, hp, hs, noFaults, newOrder]
  · exact lookupById_updatePhone ⟨phone, hmem, rfl⟩
  · rw [decrementedPhone]
    by_cases h0 : phone.stock - q = 0
    · simp [h0]
    · simp [h0, hav]

/-- Witness for C4 at the scenario of the spec: stock 3, quantity 2. -/
theorem create_order_success_updates_stock_witness :
    (parseQuantity reqTwo.quantity = some 2 ∧
     requiredFieldsOk reqTwo = true ∧
     findPhone db0.phones (reqTwo.phone_id.getD 0) = some phoneA ∧
     ¬ phoneA.stock < 2) ∧
    ∃ db' oid p',
      create_order db0 reqTwo noFaults = (db', OrderResult.success oid (phoneA.price_php * ((2 : ℤ) : ℚ))) ∧
      lookupById db'.phones phoneA.id = some p' ∧
      p'.stock = phoneA.stock - 2 ∧
      (p'.is_available = false ↔ phoneA.stock - 2 = 0) :=
  ⟨⟨by decide, by decide, by decide, by decide⟩,
   create_order_success_updates_stock db0 reqTwo 2 phoneA (by decide) (by decide)
     (by decide) (by decide)⟩

/-- C5: a placement reaching the stock comparison with stock below the
requested quantity mutates neither store and produces the insufficient-stock
response, a 400 whose message reports the current stock count. -/
theorem create_order_insufficient_stock (db : DB) (req : OrderRequest)
    (q : ℤ) (phone : Phone) (faults : Faults)
    (hq : parseQuantity req.quantity = some q)
    (hv : requiredFieldsOk req = true)
    (hp : findPhone db.phones (req.phone_id.getD 0) = some phone)
    (hs : phone.stock < q) :
    create_order db req faults = (db, OrderResult.insufficientStock phone.stock) ∧
    (orderResponse (create_order db req faults).2).status = 400 ∧
    (orderResponse (create_order db req faults).2).message =
      "Only " ++ toString phone.stock ++ " units available in stock" ∧
    (orderResponse (create_order db req faults).2).success = false := by
  have h : create_order db req faults = (db, OrderResult.insufficientStock phone.stock) := by
    simp [create_order, hq, hv, hp, hs]
  refine ⟨h, ?_, ?_, ?_⟩ <;> rw [h] <;> rfl

/-- Witness for C5 at the scenario of the spec: stock 1 left, quantity 2. -/
theorem create_order_insufficient_stock_witness :
    (parseQuantity reqTwo.quantity = some 2 ∧
     requiredFieldsOk reqTwo = true ∧
     findPhone db1.phones (reqTwo.phone_id.getD 0) = some phoneB ∧
     phoneB.stock < 2) ∧
    (create_order db1 reqTwo noFaults = (db1, OrderResult.insufficientStock phoneB.stock) ∧
     (orderResponse (create_order db1 reqTwo noFaults).2).status = 400 ∧
     (orderResponse (create_order db1 reqTwo noFaults).2).message =
       "Only " ++ toString phoneB.stock ++ " units available in stock" ∧
     (orderResponse (create_order db1 reqTwo noFaults).2).success = false) :=
  ⟨⟨by decide, by decide, by decide, by decide⟩,
   create_order_insufficient_stock db1 reqTwo 2 phoneB noFaults (by decide) (by decide)
     (by decide) (by decide)⟩

/-- C1: the two persistence calls of create_order are separate writes with
the order insert first, so a phone save that raises at runtime leaves the
order persisted while the stock decrement is lost: the response is the 500
error, the catalog is unchanged, and the order store has grown by one row. -/
theorem create_order_torn_write_on_save_failure :
    (create_order db0 reqA ⟨false, true⟩).2 = OrderResult.serverError ∧
    (orderResponse (create_order db0 reqA ⟨false, true⟩).2).status = 500 ∧
    (create_order db0 reqA ⟨false, true⟩).1.phones = db0.phones ∧
    (create_order db0 reqA ⟨false, true⟩).1.orders.length = db0.orders.length + 1 := by
  refine ⟨by decide, by decide, by decide, by decide⟩

/-- C3: the quantity is never validated as a positive integer: the integer 0
passes every check and the order is placed (status 200, not 400); a value
int() raises on produces the 500 path, not the 400 validation response; and
the integer -2 passes the stock comparison and the placement increases the
stock from 3 to 5. -/
theorem create_order_quantity_validation_gap :
    ((create_order db0 reqZero noFaults).2 ≠ OrderResult.validationError ∧
     (orderResponse (create_order db0 reqZero noFaults).2).status = 200 ∧
     (create_order db0 reqZero noFaults).1.orders.map Order.quantity = [0]) ∧
    ((create_order db0 reqBadQty noFaults).2 = OrderResult.serverError ∧
     (orderResponse (create_order db0 reqBadQty noFaults).2).status = 500) ∧
    ((orderResponse (create_order db0 reqNeg noFaults).2).status = 200 ∧
     (create_order db0 reqNeg noFaults).1.orders.map Order.quantity = [-2] ∧
     (lookupById (create_order db0 reqNeg noFaults).1.phones 1).map Phone.stock =
       some 5 ∧
     (lookupById db0.phones 1).map Phone.stock = some 3) := by
  refine ⟨⟨by decide, by decide, by decide⟩, ⟨by decide, by decide⟩,
          by decide, by decide, by decide, by decide⟩

/-- Sanity link between the interleaving model and the sequential function:
a request stepped alone to completion produces exactly the fault-free
create_order state and outcome. -/
lemma stepOrder_solo (db : DB) (req : OrderRequest) :
    stepOrder req (stepOrder req (stepOrder req (db, PC.start))) =
      ((create_order db req noFaults).1,
       PC.finished (create_order db req noFaults).2) := by
  rcases hq : parseQuantity req.quantity with _ | q
  · simp [stepOrder, create_order, hq]
  · by_cases hv : requiredFieldsOk req = false
    · simp [stepOrder, create_order, hq, hv]
    · rcases hp : findPhone db.phones (req.phone_id.getD 0) with _ | phone
      · simp [stepOrder, create_order, hq, hv, hp]
      · by_cases hs : phone.stock < q
        · simp [stepOrder, create_order, hq, hv, hp, hs]
        · simp [stepOrder, create_order, hq, hv, hp, hs, noFaults]

/-- C2: under the schedule in which both handlers read the phone row before
either writes, two placements of quantity 1 against a stock of 1 both finish
with the 200 outcome: two order rows are persisted against a single unit and
the final stock silently absorbs a lost update. -/
theorem concurrent_placements_oversell :
    finishedSuccess (runTwo reqA reqB raceSchedule (db1, PC.start, PC.start)).2.1 = true ∧
    finishedSuccess (runTwo reqA reqB raceSchedule (db1, PC.start, PC.start)).2.2 = true ∧
    (runTwo reqA reqB raceSchedule (db1, PC.start, PC.start)).1.orders.length = 2 ∧
    (lookupById (runTwo reqA reqB raceSchedule (db1, PC.start, PC.start)).1.phones 1).map
      Phone.stock = some 0 ∧
    phoneB.stock = 1 := by
  refine ⟨by decide, by decide, by decide, by decide, by decide⟩

/-- Preservation of the stock invariant by a phone save whose saved object
itself satisfies it. -/
lemma stockInvariant_updatePhone : ∀ (phones : List Phone) (p' : Phone),
    (∀ p ∈ phones, p.stock = 0 → p.is_available = false) →
    (p'.stock = 0 → p'.is_available = false) →
    ∀ p ∈ updatePhone phones p', p.stock = 0 → p.is_available = false := by
  intro phones p'
  induction phones with
  | nil => intro _ _ p hp; simp [updatePhone] at hp
  | cons a rest ih =>
    intro hinv hp' p hp
    by_cases h : a.id = p'.id
    · rw [updatePhone, if_pos h] at hp
      rcases List.mem_cons.mp hp with rfl | hmem
      · exact hp'
      · exact ih (fun x hx => hinv x (List.mem_cons_of_mem _ hx)) hp' p hmem
    · rw [updatePhone, if_neg h] at hp
      rcases List.mem_cons.mp hp with rfl | hmem
      · exact hinv p (List.mem_cons_self _ _)
      · exact ih (fun x hx => hinv x (List.mem_cons_of_mem _ hx)) hp' p hmem

/-- The decremented phone object satisfies the stock invariant by
construction. -/
lemma decrementedPhone_inv (phone : Phone) (q : ℤ) :
    (decrementedPhone phone q).stock = 0 → (decrementedPhone phone q).is_available = false := by
  intro h0
  rw [decrementedPhone] at h0 ⊢
  simp only at h0
  simp [h0]

/-- C7: the invariant that availability is false whenever stock is zero is
preserved by order placement along every path and fault schedule, and by the
catalog query. -/
theorem stock_invariant_preserved (db : DB) (req : OrderRequest) (faults : Faults)
    (hinv : stockInvariant db) :
    stockInvariant (create_order db req faults).1 ∧
    stockInvariant (phones_api db).1 := by
  constructor
  · simp only [create_order]
    split
    · exact hinv
    · split
      · exact hinv
      · split
        · exact hinv
        · split
          · exact hinv
          · split
            · exact hinv
            · split
              · exact hinv
              · exact stockInvariant_updatePhone db.phones _ hinv
                  (decrementedPhone_inv _ _)
  · exact hinv

/-- Witness for C7 at a concrete store and placement. -/
theorem stock_invariant_preserved_witness :
    stockInvariant db0 ∧
    (stockInvariant (create_order db0 reqTwo noFaults).1 ∧
     stockInvariant (phones_api db0).1) :=
  ⟨by unfold stockInvariant; decide,
   stock_invariant_preserved db0 reqTwo noFaults (by unfold stockInvariant; decide)⟩

/-- C8: the catalog query mutates nothing and returns exactly the
serialisations of the phones that are available and have positive stock. -/
theorem phones_api_filter (db : DB) :
    (phones_api db).1 = db ∧
    (∀ r ∈ (phones_api db).2, ∃ p ∈ db.phones,
        r = phoneJson p ∧ p.is_available = true ∧ 0 < p.stock) ∧
    (∀ p ∈ db.phones, p.is_available = true → 0 < p.stock →
        phoneJson p ∈ (phones_api db).2) := by
  refine ⟨rfl, ?_, ?_⟩
  · intro r hr
    simp only [phones_api] at hr
    obtain ⟨p, hp, rfl⟩ := List.mem_map.mp hr
    obtain ⟨hmem, hflt⟩ := List.mem_filter.mp hp
    rw [availableInStock, Bool.and_eq_true] at hflt
    exact ⟨p, hmem, rfl, hflt.1, of_decide_eq_true hflt.2⟩
  · intro p hp hav hst
    simp only [phones_api]
    exact List.mem_map.mpr ⟨p, List.mem_filter.mpr
      ⟨hp, by rw [availableInStock, hav, decide_eq_true hst]; rfl⟩, rfl⟩

/-- Witness for C8 at a concrete store. -/
theorem phones_api_filter_witness :
    phoneJson phoneA ∈ (phones_api db0).2 ∧ (phones_api db0).1 = db0 :=
  ⟨(phones_api_filter db0).2.2 phoneA (by decide) (by decide) (by decide),
   (phones_api_filter db0).1⟩

/-- C6 counterexample: for the placement of 3 units priced 0.10 the persisted
total is the exact decimal 0.30, but the value put in the JSON response is
float(total), which is not equal to 0.30: the returned total is not the
decimal-exact product. -/
theorem returned_total_price_drifts :
    (orderResponse (create_order db2 reqC noFaults).2).total_price_php =
      some (pyFloat (3 / 10)) ∧
    (create_order db2 reqC noFaults).1.orders.map Order.total_price_php = [3 / 10] ∧
    pyFloat (3 / 10) ≠ 3 / 10 := by
  have ht : phoneC.price_php * ((3 : ℤ) : ℚ) = 3 / 10 := by
    simp [phoneC]
    norm_num
  have hrun : create_order db2 reqC noFaults =
      (⟨updatePhone db2.phones (decrementedPhone phoneC 3),
        [newOrder db2 reqC phoneC 3 (phoneC.price_php * ((3 : ℤ) : ℚ))]⟩,
       OrderResult.success 1 (phoneC.price_php * ((3 : ℤ) : ℚ))) := rfl
  refine ⟨?_, ?_, pyFloat_three_tenths_ne⟩
  · rw [hrun, ht]
    rfl
  · rw [hrun]
    simp [newOrder, phoneC]
    norm_num

/-- C6 amended: on the success path the persisted order row carries the exact
decimal total price times quantity, and the response carries the float()
conversion of that exact total. -/
theorem order_total_exact_and_float_returned (db : DB) (req : OrderRequest)
    (q : ℤ) (phone : Phone)
    (hq : parseQuantity req.quantity = some q)
    (hv : requiredFieldsOk req = true)
    (hp : findPhone db.phones (req.phone_id.getD 0) = some phone)
    (hs : ¬ phone.stock < q) :
    ∃ db' oid o,
      create_order db req noFaults = (db', OrderResult.success oid (phone.price_php * (q : ℚ))) ∧
      db'.orders = db.orders ++ [o] ∧
      o.total_price_php = phone.price_php * (q : ℚ) ∧
      o.quantity = q ∧
      (orderResponse (OrderResult.success oid (phone.price_php * (q : ℚ)))).total_price_php =
        some (pyFloat (phone.price_php * (q : ℚ))) := by
  refine ⟨⟨updatePhone db.phones (decrementedPhone phone q),
           db.orders ++ [newOrder db req phone q (phone.price_php * (q : ℚ))]⟩,
          db.orders.length + 1,
          newOrder db req phone q (phone.price_php * (q : ℚ)),
          ?_, rfl, rfl, rfl, rfl⟩
  simp [create_order, hq, hv, hp, hs, noFaults, newOrder]

/-- Witness for the amended C6 at the scenario of the spec: 25999.00 times 2
is exactly 51998.00, a value on which float() is the identity. -/
theorem order_total_exact_witness :
    (parseQuantity reqTwo.quantity = some 2 ∧
     requiredFieldsOk reqTwo = true ∧
     findPhone db0.phones (reqTwo.phone_id.getD 0) = some phoneA ∧
     ¬ phoneA.stock < 2) ∧
    (∃ db' oid o,
      create_order db0 reqTwo noFaults = (db', OrderResult.success oid (phoneA.price_php * ((2 : ℤ) : ℚ))) ∧
      db'.orders = db0.orders ++ [o] ∧
      o.total_price_php = phoneA.price_php * ((2 : ℤ) : ℚ) ∧
      o.quantity = 2 ∧
      (orderResponse (OrderResult.success oid (phoneA.price_php * ((2 : ℤ) : ℚ)))).total_price_php =
        some (pyFloat (phoneA.price_php * ((2 : ℤ) : ℚ)))) ∧
    phoneA.price_php * ((2 : ℤ) : ℚ) = 51998 ∧
    pyFloat (phoneA.price_php * ((2 : ℤ) : ℚ)) = 51998 := by
  have h : phoneA.price_php * ((2 : ℤ) : ℚ) = 51998 := by
    simp [phoneA]
    norm_num
  exact ⟨⟨by decide, by decide, by decide, by decide⟩,
    order_total_exact_and_float_returned db0 reqTwo 2 phoneA (by decide) (by decide)
      (by decide) (by decide),
    h, by rw [h]; exact pyFloat_51998⟩

/-- C9: when the message is nonempty, chat_api forwards to the collaborator
exactly the system prompt, then the last ten history entries with their
defaults applied (older entries dropped), then the current user message. -/
theorem chat_forwards_last_ten (db : DB) (req : ChatRequest)
    (hm : req.message.getD "" ≠ "") :
    ∃ dropped kept,
      req.history = dropped ++ kept ∧
      kept.length = min req.history.length 10 ∧
      chat_api db req = (db, ChatOutcome.forwarded
        ⟨"openai/gpt-3.5-turbo",
         ChatMsg.mk "system" (system_prompt db) ::
           (kept.map coerceMsg ++ [ChatMsg.mk "user" (req.message.getD "")]),
         7 / 10, 500⟩) := by
  refine ⟨req.history.take (req.history.length - 10), lastSlice 10 req.history,
          ?_, ?_, ?_⟩
  · rw [lastSlice]
    exact (List.take_append_drop _ _).symm
  · rw [lastSlice, List.length_drop]
    omega
  · simp only [chat_api, buildMessages]
    rw [if_neg hm]

/-- Witness for C9: with a twelve-entry history the forwarded window has
length ten. -/
theorem chat_forwards_last_ten_witness :
    ((⟨some "hello", hist12⟩ : ChatRequest).message.getD "" ≠ "") ∧
    ∃ dropped kept,
      (⟨some "hello", hist12⟩ : ChatRequest).history = dropped ++ kept ∧
      kept.length = min (⟨some "hello", hist12⟩ : ChatRequest).history.length 10 ∧
      chat_api db0 ⟨some "hello", hist12⟩ = (db0, ChatOutcome.forwarded
        ⟨"openai/gpt-3.5-turbo",
         ChatMsg.mk "system" (system_prompt db0) ::
           (kept.map coerceMsg ++
            [ChatMsg.mk "user" ((⟨some "hello", hist12⟩ : ChatRequest).message.getD "")]),
         7 / 10, 500⟩) :=
  ⟨by decide, chat_forwards_last_ten db0 ⟨some "hello", hist12⟩ (by decide)⟩

/-- C10: a missing or empty message makes chat_api return the 400 rejection
with success false, without building or forwarding any upstream payload and
without touching the stores. -/
theorem chat_rejects_empty_message (db : DB) (req : ChatRequest)
    (hm : req.message = none ∨ req.message = some "") :
    chat_api db req = (db, ChatOutcome.reject "Please provide a message." false 400) ∧
    ∀ payload, (chat_api db req).2 ≠ ChatOutcome.forwarded payload := by
  have h : req.message.getD "" = "" := by
    rcases hm with h | h <;> rw [h] <;> rfl
  have hc : chat_api db req =
      (db, ChatOutcome.reject "Please provide a message." false 400) := by
    simp only [chat_api]
    rw [if_pos h]
  exact ⟨hc, fun payload => by rw [hc]; simp⟩

/-- Witness for C10 at a request with no message field. -/
theorem chat_rejects_empty_message_witness :
    chat_api db0 ⟨none, []⟩ =
      (db0, ChatOutcome.reject "Please provide a message." false 400) :=
  (chat_rejects_empty_message db0 ⟨none, []⟩ (Or.inl rfl)).1

end PhoneExpress
